import Mathlib

/-!
Shallow embedding of the JourneyToDayOneImporter validation and import
pipeline (source file src/src/j2d/j2d.py), together with theorems settling
the specification claims about it.

Python floats are modelled by `PyFloat` (an exact rational for the finite
doubles, plus infinities and NaN); the only float operations the program
performs are `math.isfinite`, `math.fabs`, comparison with a constant and
equality with `sys.float_info.max`, all of which are exact on doubles and
therefore faithfully represented on rationals.  External capabilities
(pytz, tzlocal, datetime formatting, the filesystem, the HTML-to-markdown
converter, Python float printing) are collected in an `Env` record and the
program functions are parametrised by it.
-/

/-- Model of a Python float: an exact finite value (doubles are a subset of
the rationals and every operation used by the program is exact), or one of
the non-finite values. -/
inductive PyFloat where
  | finite (q : ℚ)
  | inf
  | neginf
  | nan
deriving DecidableEq, Repr

/-- Model of `math.isfinite`. -/
def PyFloat.isfinite : PyFloat → Bool
  | .finite _ => true
  | _ => false

/-- Model of `math.fabs`. -/
def PyFloat.fabs : PyFloat → PyFloat
  | .finite q => .finite |q|
  | .inf => .inf
  | .neginf => .inf
  | .nan => .nan

/-- Model of the Python `<=` comparison on floats (IEEE semantics: any
comparison with NaN is false). -/
def PyFloat.le : PyFloat → PyFloat → Bool
  | .nan, _ => false
  | _, .nan => false
  | .neginf, _ => true
  | .finite _, .neginf => false
  | .inf, .neginf => false
  | .finite a, .finite b => a ≤ b
  | .finite _, .inf => true
  | .inf, .finite _ => false
  | .inf, .inf => true

/-- Model of the Python `==` comparison on floats (IEEE semantics: NaN is
equal to nothing, including itself). -/
def PyFloat.beq : PyFloat → PyFloat → Bool
  | .nan, _ => false
  | _, .nan => false
  | .finite a, .finite b => a == b
  | .inf, .inf => true
  | .neginf, .neginf => true
  | _, _ => false

/-- Model of Python truthiness `bool(x)` for a float: zero is falsy, every
other float (including NaN and the infinities) is truthy. -/
def PyFloat.toBool : PyFloat → Bool
  | .finite q => q != 0
  | _ => true

/-- The integer value (2^53 - 1) * 2^971 of the largest finite double,
written as an explicit literal so that kernel reduction never has to
evaluate a large exponentiation. -/
def floatMaxNum : ℕ := 179769313486231570814527423731704356798070567525844996598917476803157260780028538760589558632766878171540458953514382464234321326889464182768467546703537516986049910576551282076245490090389328944075868508455133942304583236903222948165808559332123348274797826204144723168738177180919299881250404026184124858368

/-- Model of `sys.float_info.max`, the largest finite double
1.7976931348623157e308, exactly. -/
def floatMax : PyFloat := .finite (floatMaxNum : ℚ)

/-- Model of the character class matched by the regex `\s` on a Python 3
str: the six ASCII whitespace characters plus the Unicode whitespace
code points. -/
def pyIsSpace (c : Char) : Bool :=
  c ∈ [' ', '\t', '\n', '\x0d', '\x0b', '\x0c',
       '\x1c', '\x1d', '\x1e', '\x1f', '\x85', '\xa0',
       ' ', ' ', ' ', ' ', ' ', ' ',
       ' ', ' ', ' ', ' ', ' ', ' ',
       ' ', ' ', ' ', ' ', '　']

/-- Model of the character class `[A-F0-9]` used by `parse_id_from_output`. -/
def isUpperHexDigit (c : Char) : Bool :=
  ('A' ≤ c && c ≤ 'F') || ('0' ≤ c && c ≤ '9')

/-- Occurrence scan over character lists: does `sub` occur contiguously
inside `l`?  Scans candidate start positions left to right, like the C
loop underlying Python `str.find`. -/
def listContainsSub (sub : List Char) : List Char → Bool
  | [] => sub.isEmpty
  | c :: cs => sub.isPrefixOf (c :: cs) || listContainsSub sub cs

/-- Model of Python `s.find(sub) != -1`, i.e. substring containment. -/
def str_contains (s sub : String) : Bool :=
  listContainsSub sub.data s.data

/-- Model of the `JourneyEntry` dataclass (j2d.py lines 22-34): the raw
record as read from one exported file. -/
structure JourneyEntry where
  id : String
  path : String
  date_journal : Option Int
  text : String
  type : String
  lat : Option PyFloat
  lon : Option PyFloat
  timezone : String
  address : String
  tags : List String
  photos : List String
deriving DecidableEq, Repr

/-- Model of the `ValidatedEntry` dataclass (j2d.py lines 37-47): the
normalized, import-ready record. -/
structure ValidatedEntry where
  foreign_id : String
  source_path : String
  text : String
  tags : List String
  photos : List String
  lat : Option PyFloat
  lon : Option PyFloat
  timestamp : String
  timezone : String
deriving DecidableEq, Repr

/-- Model of the `ImportManyResult` dataclass (j2d.py lines 57-63): the
batch accumulator. -/
structure ImportManyResult where
  failed_entry_paths : List String
  skipped_entry_paths : List String
  skipped_attachment_paths : List String
  attempted_entry_count : Nat
  total_entry_count : Nat
deriving DecidableEq, Repr

/-- Result of one subprocess invocation of the external `dayone2` tool:
exit status, standard output and standard error. -/
structure ProcResult where
  returncode : Int
  stdout : String
  stderr : String
deriving DecidableEq, Repr

/-- The log events the validator can emit, in one constructor per call
site of the logger inside `validate_journey_entry`. -/
inductive LogEvent where
  | infoValidating (id : String)
  | warnTimezoneInvalid (tzName : String)
  | warnTimestampInvalid (ms : Int)
  | warnMissingAttachment (artifactType : String) (absPath : String)
  | debugNoLocation (id : String)
  | warnInvalidCoords (id : String)
  | warnNoText (id : String)
  | warnNoTextNoPhotos (id : String)
  | warnDayOneMoment (id : String)
deriving DecidableEq, Repr

/-- The external capabilities the program uses, collected into one record:

* `pytzZone s` models `pytz.timezone(s).zone`; `none` models the
  `UnknownTimeZoneError` exception.
* `localZone` models `tzlocal.get_localzone().zone`.
* `fmtInZone z ms` models rendering the instant `ms` epoch milliseconds
  with `strftime("%Y-%m-%d %I:%M:%S %p")` in the time zone named `z`;
  `none` models the `OverflowError`/`ValueError`/`OSError` exceptions of
  `datetime.fromtimestamp`.  The call `datetime.fromtimestamp(ms / 1000)`
  in the source carries no tzinfo argument and therefore, by the Python
  library semantics, renders the instant in the platform local time zone:
  it is embedded as `fmtInZone localZone ms`.
* `nowFmt z` models `datetime.now(tz(z)).strftime("%Y-%m-%d %I:%M:%S %p")`.
* `resolveAbs p` models `os.path.abspath(os.path.join(src_directory, p))`
  for the fixed source directory of the run.
* `pathExists` and `isFile` model `os.path.exists` and `os.path.isfile`.
* `convertMarkdown` models `convert_html_to_markdown` (the HTML detection
  plus markdownify conversion, an external capability per the spec).
* `floatStr` models Python `str()` applied to a float. -/
structure Env where
  pytzZone : String → Option String
  localZone : String
  fmtInZone : String → Int → Option String
  nowFmt : String → String
  resolveAbs : String → String
  pathExists : String → Bool
  isFile : String → Bool
  convertMarkdown : String → String
  floatStr : PyFloat → String

/-- Model of `Importer.determine_attachment_type` (j2d.py lines 112-128). -/
def determine_attachment_type (path : String) : String :=
  if path.endsWith "mp4" then "video"
  else if path.endsWith "mp3" then "audio"
  else "photo"

mutual

/-- Model of `re.sub(r"\s+", r"\\\g<0>", raw)` on the character list: on
hitting a whitespace character that starts a maximal whitespace run, emit
one backslash and then copy the run. -/
def escapeTagGo : List Char → List Char
  | [] => []
  | c :: cs => if pyIsSpace c then '\\' :: c :: escapeRunGo cs else c :: escapeTagGo cs

/-- Continuation of `escapeTagGo` inside a whitespace run: characters of
the run are copied unescaped until the run ends. -/
def escapeRunGo : List Char → List Char
  | [] => []
  | c :: cs => if pyIsSpace c then c :: escapeRunGo cs else c :: escapeTagGo cs

end

/-- Model of `Importer.escape_tag` (j2d.py lines 244-247). -/
def escape_tag (raw : String) : String :=
  String.mk (escapeTagGo raw.data)

/-- Model of the timezone-resolution block of `validate_journey_entry`
(j2d.py lines 143-150). -/
def resolve_timezone (env : Env) (rawTz : String) : String × List LogEvent :=
  let r :=
    if rawTz ≠ "" then
      match env.pytzZone rawTz with
      | some z => (z, ([] : List LogEvent))
      | none => ("", [LogEvent.warnTimezoneInvalid rawTz])
    else ("", [])
  if r.1 = "" then (env.localZone, r.2) else r

/-- Model of the timestamp-resolution block of `validate_journey_entry`
(j2d.py lines 152-162).  `timezone` is the already-resolved zone name;
note that the primary branch formats via the platform local zone (the
source calls `datetime.fromtimestamp` with no tzinfo) while only the
fallback branch uses the resolved zone. -/
def resolve_timestamp (env : Env) (timezone : String) (dj : Option Int) :
    String × List LogEvent :=
  let r :=
    match dj with
    | some ms =>
      match env.fmtInZone env.localZone ms with
      | some s => (s, ([] : List LogEvent))
      | none => ("", [LogEvent.warnTimestampInvalid ms])
    | none => ("", [])
  if r.1 = "" then (env.nowFmt timezone, r.2) else r

/-- Model of the attachment-resolution loop of `validate_journey_entry`
(j2d.py lines 164-177): returns the resolved absolute paths, the source
paths appended to `skipped_attachment_paths` (one copy of the owning
entry source path per unresolved attachment), and the emitted warnings,
in loop order. -/
def process_photos (env : Env) (source_path : String) :
    List String → List String × List String × List LogEvent
  | [] => ([], [], [])
  | path :: rest =>
    let abs := env.resolveAbs path
    let tail := process_photos env source_path rest
    if env.pathExists abs && env.isFile abs then
      (abs :: tail.1, tail.2.1, tail.2.2)
    else
      (tail.1, source_path :: tail.2.1,
       LogEvent.warnMissingAttachment (determine_attachment_type path) abs :: tail.2.2)

/-- The latitude validity test of `validate_journey_entry` (j2d.py lines
187-191): finite, absolute value at most 90, not the float-max sentinel. -/
def is_lat_valid (la : PyFloat) : Bool :=
  la.isfinite && la.fabs.le (.finite 90) && !(la.beq floatMax)

/-- The longitude validity test of `validate_journey_entry` (j2d.py lines
192-196): finite, absolute value at most 180, not the float-max sentinel. -/
def is_lon_valid (lo : PyFloat) : Bool :=
  lo.isfinite && lo.fabs.le (.finite 180) && !(lo.beq floatMax)

/-- Model of the coordinate-validation block of `validate_journey_entry`
(j2d.py lines 184-211). -/
def resolve_coordinates (raw : JourneyEntry) :
    (Option PyFloat × Option PyFloat) × List LogEvent :=
  match raw.lat, raw.lon with
  | some la, some lo =>
    if is_lat_valid la && is_lon_valid lo then ((some la, some lo), [])
    else if la.beq floatMax && lo.beq floatMax then
      ((none, none), [LogEvent.debugNoLocation raw.id])
    else
      ((none, none), [LogEvent.warnInvalidCoords raw.id])
  | _, _ => ((none, none), [])

/-- Model of `Importer.validate_journey_entry` (j2d.py lines 138-242):
given the environment, a raw entry and the current batch accumulator,
returns the optional normalized entry, the updated accumulator and the
emitted log events in program order.  The mutation of
`self.data.skipped_attachment_paths` inside the photo loop and of
`self.data.skipped_entry_paths` on skip are modelled by the returned
accumulator. -/
def validate_journey_entry (env : Env) (raw : JourneyEntry) (data : ImportManyResult) :
    Option ValidatedEntry × ImportManyResult × List LogEvent :=
  let tzr := resolve_timezone env raw.timezone
  let tsr := resolve_timestamp env tzr.1 raw.date_journal
  let ph := process_photos env raw.path raw.photos
  let tags := raw.tags.map escape_tag
  let co := resolve_coordinates raw
  let text := env.convertMarkdown raw.text
  let noTextEvs : List LogEvent := if text = "" then [.warnNoText raw.id] else []
  let skipEmpty : Bool := decide (text = "") && decide (ph.1.length = 0)
  let skipEmptyEvs : List LogEvent := if skipEmpty then [.warnNoTextNoPhotos raw.id] else []
  let hasMoment : Bool := str_contains text "dayone-moment:"
  let momentEvs : List LogEvent := if hasMoment then [.warnDayOneMoment raw.id] else []
  let evs : List LogEvent :=
    .infoValidating raw.id ::
      (tzr.2 ++ tsr.2 ++ ph.2.2 ++ co.2 ++ noTextEvs ++ skipEmptyEvs ++ momentEvs)
  let data1 :=
    { data with skipped_attachment_paths := data.skipped_attachment_paths ++ ph.2.1 }
  if skipEmpty || hasMoment then
    (none,
     { data1 with skipped_entry_paths := data1.skipped_entry_paths ++ [raw.path] },
     evs)
  else
    (some { foreign_id := raw.id, source_path := raw.path, text := text, tags := tags,
            photos := ph.1, lat := co.1.1, lon := co.1.2,
            timestamp := tsr.1, timezone := tzr.1 },
     data1, evs)

/-- Model of `Importer.validate_journey_entries` (j2d.py lines 130-136)
over a materialized list: only entries for which the validator returned a
record are passed on to the import stage. -/
def validate_journey_entries (env : Env) (raws : List JourneyEntry)
    (data : ImportManyResult) : List ValidatedEntry × ImportManyResult :=
  raws.foldl
    (fun acc raw =>
      let r := validate_journey_entry env raw acc.2
      match r.1 with
      | some v => (acc.1 ++ [v], r.2.1)
      | none => (acc.1, r.2.1))
    ([], data)

/-- Model of `Importer.build_dayone_args` (j2d.py lines 311-322).  Note
that the coordinate condition in the source is `if entry.lat and
entry.lon:`, Python truthiness on `Optional[float]` values, modelled by
`PyFloat.toBool` on present values and false on `None`. -/
def build_dayone_args (env : Env) (target_journal_name : String)
    (entry : ValidatedEntry) : List String :=
  let args := ["dayone2", "-j", target_journal_name]
  let args := args ++ ["-d", entry.timestamp]
  let args := args ++ ["-z", entry.timezone]
  let args := if entry.tags.length > 0 then args ++ ["-t"] ++ entry.tags else args
  let args := if entry.photos.length > 0 then args ++ ["-p"] ++ entry.photos else args
  let args :=
    match entry.lat, entry.lon with
    | some la, some lo =>
      if la.toBool && lo.toBool then
        args ++ ["--coordinate", env.floatStr la, env.floatStr lo]
      else args
    | _, _ => args
  args ++ ["--", "new"]

/-- Model of `Importer.parse_id_from_output` (j2d.py lines 324-332).  The
regex `([A-F0-9]+)\s*$` searched anywhere in the output matches exactly
the maximal trailing run of upper-case hexadecimal characters once all
trailing whitespace is removed (the `$` anchor also matching before a
final newline changes nothing, since a final newline is whitespace);
absence of a match yields the empty string. -/
def parse_id_from_output (output : String) : String :=
  let rev := output.data.reverse
  let stripped := rev.dropWhile pyIsSpace
  String.mk (stripped.takeWhile isUpperHexDigit).reverse

/-- Model of `Importer.import_one_entry` (j2d.py lines 292-309) given the
outcome of the subprocess: on exit status zero the parsed id and no
error, otherwise no id and the standard-error text verbatim.  The
launch-failure (`OSError`) path aborts the whole run and is outside this
per-outcome model. -/
def import_one_entry (p : ProcResult) : Option String × Option String :=
  if p.returncode = 0 then (some (parse_id_from_output p.stdout), none)
  else (none, some p.stderr)

/-- Model of `Importer.report_missing_attachments` (j2d.py lines 334-339):
the content written to the report file is exactly the accumulated
`skipped_attachment_paths` list. -/
def report_missing_attachments (data : ImportManyResult) : List String :=
  data.skipped_attachment_paths

/-- The emptiness-skip condition of `validate_journey_entry` (j2d.py
lines 215-221): converted text empty and zero resolved attachments. -/
def skip_empty (env : Env) (raw : JourneyEntry) : Bool :=
  decide (env.convertMarkdown raw.text = "") &&
    decide ((process_photos env raw.path raw.photos).1.length = 0)

/-- The duplicate-export condition of `validate_journey_entry` (j2d.py
lines 222-226): the converted text contains the Day One moment marker. -/
def has_moment (env : Env) (raw : JourneyEntry) : Bool :=
  str_contains (env.convertMarkdown raw.text) "dayone-moment:"

/-- The normalized record `validate_journey_entry` constructs when no
skip condition holds (j2d.py lines 228-239), expressed through the block
helpers. -/
def mk_validated (env : Env) (raw : JourneyEntry) : ValidatedEntry :=
  { foreign_id := raw.id
    source_path := raw.path
    text := env.convertMarkdown raw.text
    tags := raw.tags.map escape_tag
    photos := (process_photos env raw.path raw.photos).1
    lat := (resolve_coordinates raw).1.1
    lon := (resolve_coordinates raw).1.2
    timestamp := (resolve_timestamp env (resolve_timezone env raw.timezone).1 raw.date_journal).1
    timezone := (resolve_timezone env raw.timezone).1 }

/-- The full event list `validate_journey_entry` emits, in program
order. -/
def validate_events (env : Env) (raw : JourneyEntry) : List LogEvent :=
  .infoValidating raw.id ::
    ((resolve_timezone env raw.timezone).2 ++
     (resolve_timestamp env (resolve_timezone env raw.timezone).1 raw.date_journal).2 ++
     (process_photos env raw.path raw.photos).2.2 ++
     (resolve_coordinates raw).2 ++
     (if env.convertMarkdown raw.text = "" then [.warnNoText raw.id] else []) ++
     (if skip_empty env raw then [.warnNoTextNoPhotos raw.id] else []) ++
     (if has_moment env raw then [.warnDayOneMoment raw.id] else []))

/-- Unfolding equation for `validate_journey_entry` in terms of the named
pieces: the result is the normalized record exactly when neither skip
condition holds, the skipped-entry list receives the source path exactly
on a skip, and the skipped-attachment list always receives the photo-loop
appends. -/
theorem validate_journey_entry_eq (env : Env) (raw : JourneyEntry)
    (data : ImportManyResult) :
    validate_journey_entry env raw data =
      (if skip_empty env raw || has_moment env raw then none
       else some (mk_validated env raw),
       { failed_entry_paths := data.failed_entry_paths
         skipped_entry_paths := data.skipped_entry_paths ++
           (if skip_empty env raw || has_moment env raw then [raw.path] else [])
         skipped_attachment_paths := data.skipped_attachment_paths ++
           (process_photos env raw.path raw.photos).2.1
         attempted_entry_count := data.attempted_entry_count
         total_entry_count := data.total_entry_count },
       validate_events env raw) := by
  simp only [validate_journey_entry, skip_empty, has_moment, mk_validated, validate_events]
  split <;> simp

/-- The resolved-attachment list of an entry: each photo path whose
resolved absolute path exists and is a regular file, in order, resolved
to its absolute path. -/
def resolved_photos (env : Env) : List String → List String
  | [] => []
  | p :: rest =>
    if env.pathExists (env.resolveAbs p) && env.isFile (env.resolveAbs p) then
      env.resolveAbs p :: resolved_photos env rest
    else resolved_photos env rest

/-- The number of attachment paths of an entry that do not resolve to an
existing regular file. -/
def missing_count (env : Env) : List String → Nat
  | [] => 0
  | p :: rest =>
    if env.pathExists (env.resolveAbs p) && env.isFile (env.resolveAbs p) then
      missing_count env rest
    else missing_count env rest + 1

theorem process_photos_fst (env : Env) (sp : String) (ps : List String) :
    (process_photos env sp ps).1 = resolved_photos env ps := by
  induction ps with
  | nil => rfl
  | cons p rest ih =>
    by_cases hp : env.pathExists (env.resolveAbs p) && env.isFile (env.resolveAbs p) <;>
      simp [process_photos, resolved_photos, hp, ih]

theorem process_photos_snd (env : Env) (sp : String) (ps : List String) :
    (process_photos env sp ps).2.1 = List.replicate (missing_count env ps) sp := by
  induction ps with
  | nil => rfl
  | cons p rest ih =>
    by_cases hp : env.pathExists (env.resolveAbs p) && env.isFile (env.resolveAbs p) <;>
      simp [process_photos, missing_count, hp, ih, List.replicate_succ]

theorem process_photos_events_shape (env : Env) (sp : String) (ps : List String)
    (e : LogEvent) (he : e ∈ (process_photos env sp ps).2.2) :
    ∃ t a, e = LogEvent.warnMissingAttachment t a := by
  induction ps with
  | nil => simp [process_photos] at he
  | cons p rest ih =>
    by_cases hp : env.pathExists (env.resolveAbs p) && env.isFile (env.resolveAbs p)
    · simp [process_photos, hp] at he
      exact ih he
    · simp [process_photos, hp] at he
      rcases he with he | he
      · exact ⟨_, _, he⟩
      · exact ih he

theorem resolve_timezone_events (env : Env) (rawTz : String) :
    (resolve_timezone env rawTz).2 =
      if rawTz ≠ "" ∧ env.pytzZone rawTz = none then
        [LogEvent.warnTimezoneInvalid rawTz]
      else [] := by
  unfold resolve_timezone
  by_cases h0 : rawTz = ""
  · simp [h0]
  · cases hz : env.pytzZone rawTz
    · simp [h0, hz]
    · simp [h0, hz]
      split <;> simp

theorem resolve_timezone_recognized (env : Env) (rawTz : String)
    (h0 : rawTz ≠ "") (hz : env.pytzZone rawTz = some rawTz) :
    (resolve_timezone env rawTz).1 = rawTz := by
  unfold resolve_timezone
  simp [h0, hz]

theorem resolve_timezone_fallback (env : Env) (rawTz : String)
    (h : rawTz = "" ∨ env.pytzZone rawTz = none) :
    (resolve_timezone env rawTz).1 = env.localZone := by
  unfold resolve_timezone
  rcases h with h | h
  · simp [h]
  · by_cases h0 : rawTz = "" <;> simp [h0, h]

theorem resolve_timezone_ne_empty (env : Env) (rawTz : String)
    (hl : env.localZone ≠ "")
    (hz : ∀ z, env.pytzZone rawTz = some z → z ≠ "") :
    (resolve_timezone env rawTz).1 ≠ "" := by
  unfold resolve_timezone
  by_cases h0 : rawTz = ""
  · simp [h0, hl]
  · cases hp : env.pytzZone rawTz with
    | none => simp [h0, hp, hl]
    | some z =>
      have := hz z hp
      simp [h0, hp, hl, this]

theorem resolve_timestamp_valid (env : Env) (tzName : String) (ms : Int) (s : String)
    (hf : env.fmtInZone env.localZone ms = some s) (hs : s ≠ "") :
    (resolve_timestamp env tzName (some ms)).1 = s := by
  unfold resolve_timestamp
  simp [hf, hs]

theorem resolve_timestamp_fallback_none (env : Env) (tzName : String) :
    (resolve_timestamp env tzName none).1 = env.nowFmt tzName := by
  unfold resolve_timestamp
  simp

theorem resolve_timestamp_fallback_invalid (env : Env) (tzName : String) (ms : Int)
    (hf : env.fmtInZone env.localZone ms = none) :
    (resolve_timestamp env tzName (some ms)).1 = env.nowFmt tzName := by
  unfold resolve_timestamp
  simp [hf]

theorem resolve_timestamp_ne_empty (env : Env) (tzName : String) (dj : Option Int)
    (hn : ∀ z, env.nowFmt z ≠ "") :
    (resolve_timestamp env tzName dj).1 ≠ "" := by
  unfold resolve_timestamp
  cases dj with
  | none => simp [hn]
  | some ms =>
    cases hf : env.fmtInZone env.localZone ms with
    | none => simp [hf, hn]
    | some s =>
      by_cases hs : s = "" <;> simp [hf, hs, hn]

theorem resolve_timestamp_events_shape (env : Env) (tzName : String)
    (dj : Option Int) (e : LogEvent) (he : e ∈ (resolve_timestamp env tzName dj).2) :
    ∃ ms, e = LogEvent.warnTimestampInvalid ms := by
  unfold resolve_timestamp at he
  cases dj with
  | none => simp at he
  | some ms =>
    cases hf : env.fmtInZone env.localZone ms with
    | none =>
      simp [hf] at he
      exact ⟨ms, he⟩
    | some s =>
      by_cases hs : s = "" <;> simp [hf, hs] at he


theorem resolve_coordinates_joint (raw : JourneyEntry) :
    ((resolve_coordinates raw).1.1).isSome = ((resolve_coordinates raw).1.2).isSome := by
  unfold resolve_coordinates
  cases hla : raw.lat with
  | none => simp
  | some la =>
    cases hlo : raw.lon with
    | none => simp
    | some lo =>
      by_cases hv : is_lat_valid la && is_lon_valid lo
      · simp [hv]
      · by_cases hs : la.beq floatMax && lo.beq floatMax <;> simp [hv, hs]

theorem resolve_coordinates_lat_some (raw : JourneyEntry) (la : PyFloat)
    (h : (resolve_coordinates raw).1.1 = some la) :
    raw.lat = some la ∧ is_lat_valid la = true := by
  unfold resolve_coordinates at h
  cases hla : raw.lat with
  | none => rw [hla] at h; simp at h
  | some a =>
    cases hlo : raw.lon with
    | none => rw [hla, hlo] at h; simp at h
    | some b =>
      rw [hla, hlo] at h
      dsimp only at h
      by_cases hv : (is_lat_valid a && is_lon_valid b) = true
      · rw [if_pos hv] at h
        simp only [Option.some.injEq] at h
        subst h
        simp only [Bool.and_eq_true] at hv
        exact ⟨rfl, hv.1⟩
      · rw [if_neg hv] at h
        split at h <;> simp at h

theorem resolve_coordinates_lon_some (raw : JourneyEntry) (lo : PyFloat)
    (h : (resolve_coordinates raw).1.2 = some lo) :
    raw.lon = some lo ∧ is_lon_valid lo = true := by
  unfold resolve_coordinates at h
  cases hla : raw.lat with
  | none => rw [hla] at h; simp at h
  | some a =>
    cases hlo : raw.lon with
    | none => rw [hla, hlo] at h; simp at h
    | some b =>
      rw [hla, hlo] at h
      dsimp only at h
      by_cases hv : (is_lat_valid a && is_lon_valid b) = true
      · rw [if_pos hv] at h
        simp only [Option.some.injEq] at h
        subst h
        simp only [Bool.and_eq_true] at hv
        exact ⟨rfl, hv.2⟩
      · rw [if_neg hv] at h
        split at h <;> simp at h

theorem resolve_coordinates_sentinel (raw : JourneyEntry) (la lo : PyFloat)
    (hla : raw.lat = some la) (hlo : raw.lon = some lo)
    (h1 : la.beq floatMax = true) (h2 : lo.beq floatMax = true) :
    resolve_coordinates raw = ((none, none), [LogEvent.debugNoLocation raw.id]) := by
  unfold resolve_coordinates
  rw [hla, hlo]
  dsimp only
  have hv : is_lat_valid la = false := by
    simp [is_lat_valid, h1]
  simp [hv, h1, h2]

theorem resolve_coordinates_invalid (raw : JourneyEntry) (la lo : PyFloat)
    (hla : raw.lat = some la) (hlo : raw.lon = some lo)
    (hv : ¬(is_lat_valid la && is_lon_valid lo) = true)
    (hs : ¬(la.beq floatMax && lo.beq floatMax) = true) :
    resolve_coordinates raw = ((none, none), [LogEvent.warnInvalidCoords raw.id]) := by
  unfold resolve_coordinates
  rw [hla, hlo]
  dsimp only
  rw [if_neg hv, if_neg hs]

theorem resolve_coordinates_events_shape (raw : JourneyEntry) (e : LogEvent)
    (he : e ∈ (resolve_coordinates raw).2) :
    e = LogEvent.debugNoLocation raw.id ∨ e = LogEvent.warnInvalidCoords raw.id := by
  unfold resolve_coordinates at he
  cases hla : raw.lat with
  | none => rw [hla] at he; simp at he
  | some a =>
    cases hlo : raw.lon with
    | none => rw [hla, hlo] at he; simp at he
    | some b =>
      rw [hla, hlo] at he
      dsimp only at he
      by_cases hv : (is_lat_valid a && is_lon_valid b) = true
      · rw [if_pos hv] at he
        simp at he
      · rw [if_neg hv] at he
        by_cases hs : (a.beq floatMax && b.beq floatMax) = true
        · rw [if_pos hs] at he
          simp at he
          exact Or.inl he
        · rw [if_neg hs] at he
          simp at he
          exact Or.inr he

/-- Modelled from the spec claim wording for tag escaping: insert a
backslash before EACH whitespace character (so a run of n whitespace
characters receives n backslashes).  Used to compare the claim against
the behaviour of `escape_tag`. -/
def escapeEachGo : List Char → List Char
  | [] => []
  | c :: cs => if pyIsSpace c then '\\' :: c :: escapeEachGo cs else c :: escapeEachGo cs

/-- The claim version of tag escaping as a string function. -/
def escape_tag_claim (raw : String) : String :=
  String.mk (escapeEachGo raw.data)

/-- Amended specification of tag escaping: one backslash before the first
character of each maximal whitespace run, all other characters unchanged.
The `prevWs` flag records whether the previous character was whitespace,
i.e. whether we are inside a run. -/
def escapeRunsSpecGo (prevWs : Bool) : List Char → List Char
  | [] => []
  | c :: cs =>
    if pyIsSpace c then
      if prevWs then c :: escapeRunsSpecGo true cs
      else '\\' :: c :: escapeRunsSpecGo true cs
    else c :: escapeRunsSpecGo false cs

/-- The amended specification of tag escaping as a string function. -/
def escape_runs_spec (raw : String) : String :=
  String.mk (escapeRunsSpecGo false raw.data)

theorem escapeGo_eq_spec (l : List Char) :
    escapeTagGo l = escapeRunsSpecGo false l ∧ escapeRunGo l = escapeRunsSpecGo true l := by
  induction l with
  | nil => exact ⟨rfl, rfl⟩
  | cons c cs ih =>
    by_cases hc : pyIsSpace c <;>
      simp [escapeTagGo, escapeRunGo, escapeRunsSpecGo, hc, ih.1, ih.2]

/-- Specification predicate for the id parser: `id` consists of
upper-case hexadecimal characters, occurs at the end of `out` followed
only by whitespace, and is maximal: the character immediately before it
is not hexadecimal, and when `id` is empty the output stripped of
trailing whitespace does not end in a hexadecimal character at all. -/
def trailingHexSpec (out id : String) : Prop :=
  (∀ c ∈ id.data, isUpperHexDigit c = true) ∧
  ∃ pre ws, out.data = pre ++ id.data ++ ws
    ∧ (∀ c ∈ ws, pyIsSpace c = true)
    ∧ (∀ c, pre.getLast? = some c → isUpperHexDigit c = false)
    ∧ (id.data = [] → ∀ c, pre.getLast? = some c → pyIsSpace c = false)

theorem dropWhile_head_not {α : Type} (p : α → Bool) (l : List α) (c : α)
    (hc : (l.dropWhile p).head? = some c) : p c = false := by
  induction l with
  | nil => simp [List.dropWhile] at hc
  | cons a as ih =>
    by_cases ha : p a
    · rw [List.dropWhile_cons_of_pos ha] at hc
      exact ih hc
    · rw [List.dropWhile_cons_of_neg ha] at hc
      simp at hc
      subst hc
      simpa using ha

theorem dropWhile_eq_self_of_takeWhile_nil {α : Type} (p : α → Bool) (l : List α)
    (h : l.takeWhile p = []) : l.dropWhile p = l := by
  cases l with
  | nil => rfl
  | cons a as =>
    by_cases ha : p a
    · rw [List.takeWhile_cons_of_pos ha] at h
      simp at h
    · exact List.dropWhile_cons_of_neg ha

theorem parse_id_from_output_spec (out : String) :
    trailingHexSpec out (parse_id_from_output out) := by
  unfold parse_id_from_output trailingHexSpec
  refine ⟨?_,
    ((out.data.reverse.dropWhile pyIsSpace).dropWhile isUpperHexDigit).reverse,
    (out.data.reverse.takeWhile pyIsSpace).reverse, ?_, ?_, ?_, ?_⟩
  · intro c hc
    rw [List.mem_reverse] at hc
    exact List.mem_takeWhile_imp hc
  · have h1 : out.data = out.data.reverse.reverse := (List.reverse_reverse _).symm
    have h2 : out.data.reverse =
        out.data.reverse.takeWhile pyIsSpace ++ out.data.reverse.dropWhile pyIsSpace :=
      (List.takeWhile_append_dropWhile pyIsSpace _).symm
    have h3 : out.data.reverse.dropWhile pyIsSpace =
        (out.data.reverse.dropWhile pyIsSpace).takeWhile isUpperHexDigit ++
          (out.data.reverse.dropWhile pyIsSpace).dropWhile isUpperHexDigit :=
      (List.takeWhile_append_dropWhile isUpperHexDigit _).symm
    conv_lhs => rw [h1, h2, h3]
    rw [List.reverse_append, List.reverse_append, List.append_assoc]
  · intro c hc
    rw [List.mem_reverse] at hc
    exact List.mem_takeWhile_imp hc
  · intro c hc
    rw [List.getLast?_reverse] at hc
    exact dropWhile_head_not _ _ _ hc
  · intro hid c hc
    rw [List.getLast?_reverse] at hc
    have hnil : (out.data.reverse.dropWhile pyIsSpace).takeWhile isUpperHexDigit = [] := by
      have : ((out.data.reverse.dropWhile pyIsSpace).takeWhile isUpperHexDigit).reverse = [] := hid
      simpa using this
    rw [dropWhile_eq_self_of_takeWhile_nil _ _ hnil] at hc
    exact dropWhile_head_not _ _ _ hc

theorem mem_validate_events_iff (env : Env) (raw : JourneyEntry) (e : LogEvent) :
    e ∈ validate_events env raw ↔
      e = .infoValidating raw.id
      ∨ e ∈ (resolve_timezone env raw.timezone).2
      ∨ e ∈ (resolve_timestamp env (resolve_timezone env raw.timezone).1 raw.date_journal).2
      ∨ e ∈ (process_photos env raw.path raw.photos).2.2
      ∨ e ∈ (resolve_coordinates raw).2
      ∨ (env.convertMarkdown raw.text = "" ∧ e = .warnNoText raw.id)
      ∨ (skip_empty env raw = true ∧ e = .warnNoTextNoPhotos raw.id)
      ∨ (has_moment env raw = true ∧ e = .warnDayOneMoment raw.id) := by
  unfold validate_events
  by_cases h1 : env.convertMarkdown raw.text = "" <;>
    by_cases h2 : skip_empty env raw <;>
    by_cases h3 : has_moment env raw <;>
    simp [h1, h2, h3, or_assoc]

/-- A concrete environment used for witnesses and counterexamples: the
local zone is America/New_York, pytz recognizes exactly Asia/Tokyo, the
formatter knows the instant 1577934245000 ms (2020-01-02 03:04:05 UTC) in
both zones, and exactly the file /abs/a.jpg exists. -/
def envT : Env :=
  { pytzZone := fun s => if s = "Asia/Tokyo" then some "Asia/Tokyo" else none
    localZone := "America/New_York"
    fmtInZone := fun z ms =>
      if ms = 1577934245000 then
        if z = "Asia/Tokyo" then some "2020-01-02 12:04:05 PM"
        else if z = "America/New_York" then some "2020-01-01 10:04:05 PM"
        else none
      else none
    nowFmt := fun _ => "2026-10-12 09:00:00 AM"
    resolveAbs := fun p => "/abs/" ++ p
    pathExists := fun p => p = "/abs/a.jpg"
    isFile := fun p => p = "/abs/a.jpg"
    convertMarkdown := fun t => t
    floatStr := fun f => match f with | .finite q => toString q | _ => "x" }

/-- A concrete raw entry: recognized non-local timezone, valid timestamp,
one resolving and one missing attachment, one tag, valid coordinates. -/
def rawT : JourneyEntry :=
  { id := "e1"
    path := "/src/e1.json"
    date_journal := some 1577934245000
    text := "hello"
    type := "html"
    lat := some (.finite 10)
    lon := some (.finite 20)
    timezone := "Asia/Tokyo"
    address := ""
    tags := ["New York"]
    photos := ["a.jpg", "b.jpg"] }

/-- A concrete raw entry whose converted text contains the Day One
duplicate-export marker. -/
def rawMoment : JourneyEntry :=
  { rawT with id := "e2", path := "/src/e2.json",
              text := "some dayone-moment:ABCD link" }

/-- A concrete raw entry with empty text and no attachments. -/
def rawEmpty : JourneyEntry :=
  { rawT with id := "e3", path := "/src/e3.json", text := "", photos := [] }

/-- A concrete raw entry with empty text and one resolving attachment. -/
def rawEmptyPhoto : JourneyEntry :=
  { rawT with id := "e4", path := "/src/e4.json", text := "", photos := ["a.jpg"] }

/-- The empty batch accumulator. -/
def emptyData : ImportManyResult := ⟨[], [], [], 0, 0⟩

/-- A validated entry whose latitude is the legitimate coordinate 0.0:
present and valid, but falsy under Python truthiness. -/
def entryZeroLat : ValidatedEntry :=
  { foreign_id := "e5"
    source_path := "/src/e5.json"
    text := "hi"
    tags := []
    photos := []
    lat := some (.finite 0)
    lon := some (.finite 50)
    timestamp := "2020-01-01 01:00:00 PM"
    timezone := "UTC" }

theorem validate_res_eq (env : Env) (raw : JourneyEntry) (data : ImportManyResult)
    (res : Option ValidatedEntry) (data' : ImportManyResult) (evs : List LogEvent)
    (h : validate_journey_entry env raw data = (res, data', evs)) :
    res = if skip_empty env raw || has_moment env raw then none
          else some (mk_validated env raw) := by
  rw [validate_journey_entry_eq] at h
  simp only [Prod.mk.injEq] at h
  exact h.1.symm

theorem validate_evs_eq (env : Env) (raw : JourneyEntry) (data : ImportManyResult)
    (res : Option ValidatedEntry) (data' : ImportManyResult) (evs : List LogEvent)
    (h : validate_journey_entry env raw data = (res, data', evs)) :
    evs = validate_events env raw := by
  rw [validate_journey_entry_eq] at h
  simp only [Prod.mk.injEq] at h
  exact h.2.2.symm

theorem validate_skipped_entry_eq (env : Env) (raw : JourneyEntry) (data : ImportManyResult)
    (res : Option ValidatedEntry) (data' : ImportManyResult) (evs : List LogEvent)
    (h : validate_journey_entry env raw data = (res, data', evs)) :
    data'.skipped_entry_paths = data.skipped_entry_paths ++
      (if skip_empty env raw || has_moment env raw then [raw.path] else []) := by
  rw [validate_journey_entry_eq] at h
  simp only [Prod.mk.injEq] at h
  rw [← h.2.1]

theorem validate_skipped_attachment_eq (env : Env) (raw : JourneyEntry)
    (data : ImportManyResult) (res : Option ValidatedEntry) (data' : ImportManyResult)
    (evs : List LogEvent)
    (h : validate_journey_entry env raw data = (res, data', evs)) :
    data'.skipped_attachment_paths = data.skipped_attachment_paths ++
      List.replicate (missing_count env raw.photos) raw.path := by
  rw [validate_journey_entry_eq] at h
  simp only [Prod.mk.injEq] at h
  rw [← h.2.1]
  exact congrArg (data.skipped_attachment_paths ++ ·) (process_photos_snd env raw.path raw.photos)

theorem validate_some_eq (env : Env) (raw : JourneyEntry) (data : ImportManyResult)
    (res : Option ValidatedEntry) (data' : ImportManyResult) (evs : List LogEvent)
    (h : validate_journey_entry env raw data = (res, data', evs))
    (v : ValidatedEntry) (hv : res = some v) :
    v = mk_validated env raw
    ∧ skip_empty env raw = false ∧ has_moment env raw = false := by
  have hr := validate_res_eq env raw data res data' evs h
  rw [hv] at hr
  by_cases hc : (skip_empty env raw || has_moment env raw) = true
  · rw [if_pos hc] at hr
    cases hr
  · rw [if_neg hc] at hr
    simp only [Option.some.injEq] at hr
    simp only [Bool.or_eq_true, not_or, Bool.not_eq_true] at hc
    exact ⟨hr, hc.1, hc.2⟩

/-- C3: for every RawEntry, validation produces exactly one of a
normalized entry with no entry-level skip recorded, or no entry with the
source path appended exactly once to the skipped-entry list — never both,
never neither, even when several skip conditions hold at once. -/
theorem claim3_skip_dichotomy (env : Env) (raw : JourneyEntry) (data : ImportManyResult)
    (res : Option ValidatedEntry) (data' : ImportManyResult) (evs : List LogEvent)
    (h : validate_journey_entry env raw data = (res, data', evs)) :
    (∀ v, res = some v → data'.skipped_entry_paths = data.skipped_entry_paths)
    ∧ (res = none → data'.skipped_entry_paths = data.skipped_entry_paths ++ [raw.path]) := by
  have hs := validate_skipped_entry_eq env raw data res data' evs h
  have hr := validate_res_eq env raw data res data' evs h
  by_cases hc : (skip_empty env raw || has_moment env raw) = true
  · rw [if_pos hc] at hr hs
    constructor
    · intro v hv
      rw [hr] at hv
      cases hv
    · intro _
      exact hs
  · rw [if_neg hc] at hr hs
    constructor
    · intro v _
      simpa using hs
    · intro hn
      rw [hr] at hn
      cases hn

theorem claim3_skip_dichotomy_witness :
    (validate_journey_entry envT rawMoment emptyData).2.1.skipped_entry_paths =
      emptyData.skipped_entry_paths ++ [rawMoment.path] :=
  (claim3_skip_dichotomy envT rawMoment emptyData _ _ _ rfl).2 (by decide)

/-- C4: code-bug demonstration.  The entry `entryZeroLat` carries the
legitimate coordinate pair latitude 0.0 / longitude 50.0 — both present,
and both passing the validator's own validity tests — yet
`build_dayone_args` omits the `--coordinate` flag group entirely, because
the source condition `if entry.lat and entry.lon:` uses Python truthiness
and the float 0.0 is falsy.  The claim (and the spec) say the pair
appears whenever both coordinates are present. -/
theorem claim4_coordinate_truthiness_bug :
    entryZeroLat.lat.isSome = true
    ∧ entryZeroLat.lon.isSome = true
    ∧ is_lat_valid (.finite 0) = true
    ∧ is_lon_valid (.finite 50) = true
    ∧ build_dayone_args envT "MyJournal" entryZeroLat
        = ["dayone2", "-j", "MyJournal", "-d", "2020-01-01 01:00:00 PM",
           "-z", "UTC", "--", "new"]
    ∧ "--coordinate" ∉ build_dayone_args envT "MyJournal" entryZeroLat := by
  refine ⟨rfl, rfl, by decide, by decide, by decide, by decide⟩

/-- C5 counterexample: on a tag containing a run of two spaces, the code
inserts a single backslash before the run, while the claim (a backslash
before each whitespace character of the run) prescribes two. -/
theorem claim5_tag_escaping_counterexample :
    escape_tag "a  b" = "a\\  b"
    ∧ escape_tag_claim "a  b" = "a\\ \\ b"
    ∧ escape_tag "a  b" ≠ escape_tag_claim "a  b" := by
  refine ⟨by decide, by decide, by decide⟩

/-- C5 (amended): the escaping step inserts one backslash before the
first character of each maximal whitespace run of the tag (so a run of n
whitespace characters yields a single backslash before the run, not one
per character), non-whitespace characters are unchanged, and the order of
tags in the output list equals their order in the input list. -/
theorem claim5_tag_escaping (s : String) (env : Env) (raw : JourneyEntry)
    (data : ImportManyResult) (res : Option ValidatedEntry) (data' : ImportManyResult)
    (evs : List LogEvent)
    (h : validate_journey_entry env raw data = (res, data', evs)) :
    escape_tag s = escape_runs_spec s
    ∧ (∀ v, res = some v → v.tags = raw.tags.map escape_tag)
    ∧ escape_tag "New York" = "New\\ York" := by
  refine ⟨?_, ?_, by decide⟩
  · unfold escape_tag escape_runs_spec
    exact congrArg String.mk (escapeGo_eq_spec s.data).1
  · intro v hv
    obtain ⟨hveq, -, -⟩ := validate_some_eq env raw data res data' evs h v hv
    rw [hveq]
    rfl

theorem claim5_tag_escaping_witness :
    escape_tag "San  Francisco" = escape_runs_spec "San  Francisco" :=
  (claim5_tag_escaping "San  Francisco" envT rawT emptyData _ _ _ rfl).1

/-- C6: on zero exit status the import result is a success whose id is
the trailing hexadecimal token of standard output (anchored to the end,
tolerating trailing whitespace), or the empty string when no such token
exists — still a success; on non-zero exit status the result is a failure
carrying standard error verbatim and no id.  The concrete uuid scenario
of the spec is evaluated explicitly. -/
theorem claim6_import_result :
    (∀ p : ProcResult, p.returncode = 0 →
       import_one_entry p = (some (parse_id_from_output p.stdout), none))
    ∧ (∀ p : ProcResult, p.returncode ≠ 0 →
       import_one_entry p = (none, some p.stderr))
    ∧ (∀ out : String, trailingHexSpec out (parse_id_from_output out))
    ∧ import_one_entry
        ⟨0, "Created new entry with uuid: CB17A357BED34F6D838410CA96C7D9D1", ""⟩
        = (some "CB17A357BED34F6D838410CA96C7D9D1", none)
    ∧ parse_id_from_output "Just some output with no trailing token." = ""
    ∧ import_one_entry ⟨1, "partial output", "disk full"⟩ = (none, some "disk full") := by
  refine ⟨?_, ?_, parse_id_from_output_spec, by decide, by decide, by decide⟩
  · intro p hp
    simp [import_one_entry, hp]
  · intro p hp
    simp [import_one_entry, hp]

theorem claim6_import_result_witness :
    import_one_entry ⟨0, "ok FF", ""⟩ = (some (parse_id_from_output "ok FF"), none) :=
  claim6_import_result.1 ⟨0, "ok FF", ""⟩ rfl

theorem validate_journey_entries_singleton (env : Env) (raw : JourneyEntry)
    (data : ImportManyResult) :
    (validate_journey_entries env [raw] data).1 =
      (match (validate_journey_entry env raw data).1 with
       | some v => [v]
       | none => []) := by
  unfold validate_journey_entries
  simp only [List.foldl_cons, List.foldl_nil]
  cases hv : (validate_journey_entry env raw data).1 <;> simp [hv]

/-- C7: an entry whose converted text contains the marker substring
dayone-moment: is always skipped: no normalized entry is produced (hence
nothing reaches the import stage), and the skip is recorded by appending
the source path once to the skipped-entry list, not to the
skipped-attachment list (whose change is exactly the ordinary
missing-attachment records of the photo loop). -/
theorem claim7_dayone_moment_skip (env : Env) (raw : JourneyEntry)
    (data : ImportManyResult) (res : Option ValidatedEntry) (data' : ImportManyResult)
    (evs : List LogEvent)
    (h : validate_journey_entry env raw data = (res, data', evs))
    (hm : str_contains (env.convertMarkdown raw.text) "dayone-moment:" = true) :
    res = none
    ∧ data'.skipped_entry_paths = data.skipped_entry_paths ++ [raw.path]
    ∧ data'.skipped_attachment_paths = data.skipped_attachment_paths ++
        List.replicate (missing_count env raw.photos) raw.path
    ∧ (validate_journey_entries env [raw] data).1 = [] := by
  have hmm : has_moment env raw = true := hm
  have hc : (skip_empty env raw || has_moment env raw) = true := by simp [hmm]
  have hr := validate_res_eq env raw data res data' evs h
  have hs := validate_skipped_entry_eq env raw data res data' evs h
  have ha := validate_skipped_attachment_eq env raw data res data' evs h
  rw [if_pos hc] at hr hs
  refine ⟨hr, hs, ha, ?_⟩
  rw [validate_journey_entries_singleton, h]
  rw [show (res, data', evs).1 = res from rfl, hr]

theorem claim7_dayone_moment_skip_witness :
    (validate_journey_entry envT rawMoment emptyData).1 = none ∧
      (validate_journey_entry envT rawMoment emptyData).2.1.skipped_entry_paths =
        emptyData.skipped_entry_paths ++ [rawMoment.path] :=
  ⟨(claim7_dayone_moment_skip envT rawMoment emptyData _ _ _ rfl (by decide)).1,
   (claim7_dayone_moment_skip envT rawMoment emptyData _ _ _ rfl (by decide)).2.1⟩

/-- C8: an entry with empty converted text and no resolved attachments is
skipped with an entry-level record; an entry with empty converted text
but at least one resolved attachment is not skipped; consequently every
normalized entry has non-empty text or a non-empty attachment list. -/
theorem claim8_emptiness_policy (env : Env) (raw : JourneyEntry)
    (data : ImportManyResult) (res : Option ValidatedEntry) (data' : ImportManyResult)
    (evs : List LogEvent)
    (h : validate_journey_entry env raw data = (res, data', evs)) :
    ((env.convertMarkdown raw.text = "" ∧ (process_photos env raw.path raw.photos).1 = []) →
       res = none ∧ data'.skipped_entry_paths = data.skipped_entry_paths ++ [raw.path])
    ∧ ((env.convertMarkdown raw.text = "" ∧ (process_photos env raw.path raw.photos).1 ≠ []) →
       res = some (mk_validated env raw))
    ∧ (∀ v, res = some v → v.text ≠ "" ∨ v.photos ≠ []) := by
  have hr := validate_res_eq env raw data res data' evs h
  have hs := validate_skipped_entry_eq env raw data res data' evs h
  refine ⟨?_, ?_, ?_⟩
  · rintro ⟨ht, hp⟩
    have hse : skip_empty env raw = true := by
      simp [skip_empty, ht, hp]
    have hc : (skip_empty env raw || has_moment env raw) = true := by simp [hse]
    rw [if_pos hc] at hr hs
    exact ⟨hr, hs⟩
  · rintro ⟨ht, hp⟩
    have hse : skip_empty env raw = false := by
      simp [skip_empty, ht]
      exact hp
    have hhm : has_moment env raw = false := by
      unfold has_moment
      rw [ht]
      decide
    have hc : (skip_empty env raw || has_moment env raw) = false := by
      simp [hse, hhm]
    rw [hc] at hr
    simpa using hr
  · intro v hv
    obtain ⟨hveq, hse, -⟩ := validate_some_eq env raw data res data' evs h v hv
    subst hveq
    by_cases ht : env.convertMarkdown raw.text = ""
    · right
      simp [skip_empty, ht] at hse
      intro hnil
      have hnil2 : (process_photos env raw.path raw.photos).1 = [] := hnil
      simp [hnil2] at hse
    · left
      exact ht

theorem claim8_emptiness_policy_witness :
    (validate_journey_entry envT rawEmpty emptyData).1 = none ∧
      (validate_journey_entry envT rawEmpty emptyData).2.1.skipped_entry_paths =
        emptyData.skipped_entry_paths ++ [rawEmpty.path] :=
  (claim8_emptiness_policy envT rawEmpty emptyData _ _ _ rfl).1 ⟨rfl, by decide⟩

/-- C10: each attachment path that does not resolve to an existing
regular file appends the owning entry source path (not the attachment
path) to the skipped-attachment list, once per unresolved attachment, so
an entry with k unresolved attachments contributes k duplicate copies of
its source path there and in the persisted report, while the entry itself
can still yield a normalized record containing exactly the attachments
that resolved. -/
theorem claim10_missing_attachments (env : Env) (raw : JourneyEntry)
    (data : ImportManyResult) (res : Option ValidatedEntry) (data' : ImportManyResult)
    (evs : List LogEvent)
    (h : validate_journey_entry env raw data = (res, data', evs)) :
    data'.skipped_attachment_paths = data.skipped_attachment_paths ++
      List.replicate (missing_count env raw.photos) raw.path
    ∧ report_missing_attachments data' = data.skipped_attachment_paths ++
      List.replicate (missing_count env raw.photos) raw.path
    ∧ (∀ v, res = some v → v.photos = resolved_photos env raw.photos) := by
  have ha := validate_skipped_attachment_eq env raw data res data' evs h
  refine ⟨ha, ha, ?_⟩
  intro v hv
  obtain ⟨hveq, -, -⟩ := validate_some_eq env raw data res data' evs h v hv
  rw [hveq]
  exact process_photos_fst env raw.path raw.photos

theorem claim10_missing_attachments_witness :
    (validate_journey_entry envT rawT emptyData).2.1.skipped_attachment_paths =
      emptyData.skipped_attachment_paths ++
        List.replicate (missing_count envT rawT.photos) rawT.path :=
  (claim10_missing_attachments envT rawT emptyData _ _ _ rfl).1

/-- C9: the resolved timezone is the raw timezone name when it is
non-empty and recognized (the lookup returning that very name), otherwise
the host local timezone; the resolved name is non-empty provided the
local zone name is non-empty and recognized zone names are non-empty; the
normalized entry carries exactly the resolved name; and the timezone
warning is emitted if and only if the raw name is non-empty and
unrecognized. -/
theorem claim9_timezone_resolution (env : Env) (raw : JourneyEntry)
    (data : ImportManyResult) (res : Option ValidatedEntry) (data' : ImportManyResult)
    (evs : List LogEvent)
    (h : validate_journey_entry env raw data = (res, data', evs)) :
    (raw.timezone ≠ "" → env.pytzZone raw.timezone = some raw.timezone →
       (resolve_timezone env raw.timezone).1 = raw.timezone)
    ∧ (raw.timezone = "" ∨ env.pytzZone raw.timezone = none →
       (resolve_timezone env raw.timezone).1 = env.localZone)
    ∧ (env.localZone ≠ "" → (∀ z, env.pytzZone raw.timezone = some z → z ≠ "") →
       (resolve_timezone env raw.timezone).1 ≠ "")
    ∧ (∀ v, res = some v → v.timezone = (resolve_timezone env raw.timezone).1)
    ∧ (LogEvent.warnTimezoneInvalid raw.timezone ∈ evs ↔
        raw.timezone ≠ "" ∧ env.pytzZone raw.timezone = none) := by
  have hevs := validate_evs_eq env raw data res data' evs h
  refine ⟨fun h0 hz => resolve_timezone_recognized env raw.timezone h0 hz,
    fun hor => resolve_timezone_fallback env raw.timezone hor,
    fun hl hz => resolve_timezone_ne_empty env raw.timezone hl hz,
    ?_, ?_⟩
  · intro v hv
    obtain ⟨hveq, -, -⟩ := validate_some_eq env raw data res data' evs h v hv
    rw [hveq]
    rfl
  · subst hevs
    rw [mem_validate_events_iff]
    constructor
    · rintro (heq | hm | hm | hm | hm | ⟨-, heq⟩ | ⟨-, heq⟩ | ⟨-, heq⟩)
      · cases heq
      · rw [resolve_timezone_events] at hm
        by_cases hcond : raw.timezone ≠ "" ∧ env.pytzZone raw.timezone = none
        · exact hcond
        · rw [if_neg hcond] at hm
          cases hm
      · obtain ⟨ms, heq⟩ := resolve_timestamp_events_shape env _ raw.date_journal _ hm
        cases heq
      · obtain ⟨t, a, heq⟩ := process_photos_events_shape env raw.path raw.photos _ hm
        cases heq
      · rcases resolve_coordinates_events_shape raw _ hm with heq | heq <;> cases heq
      · cases heq
      · cases heq
      · cases heq
    · rintro ⟨h0, hz⟩
      refine Or.inr (Or.inl ?_)
      rw [resolve_timezone_events, if_pos ⟨h0, hz⟩]
      exact List.mem_singleton.mpr rfl

theorem claim9_timezone_resolution_witness :
    (resolve_timezone envT rawT.timezone).1 = rawT.timezone :=
  (claim9_timezone_resolution envT rawT emptyData _ _ _ rfl).1 (by decide) (by decide)

/-- C1 (amended): when journalTimestampMillis is present and converts to
a valid calendar timestamp, the output timestamp is that instant rendered
with the fixed pattern in the HOST LOCAL timezone (the source calls
datetime.fromtimestamp with no tzinfo), not in the resolved timezone;
when the field is absent or invalid, the timestamp is the current
wall-clock time rendered in the resolved timezone; and the timestamp
string is never empty (the fixed-pattern renderer never returns an empty
string). -/
theorem claim1_timestamp (env : Env) (raw : JourneyEntry) (data : ImportManyResult)
    (res : Option ValidatedEntry) (data' : ImportManyResult) (evs : List LogEvent)
    (h : validate_journey_entry env raw data = (res, data', evs))
    (hnow : ∀ z, env.nowFmt z ≠ "")
    (v : ValidatedEntry) (hv : res = some v) :
    (∀ ms s, raw.date_journal = some ms → env.fmtInZone env.localZone ms = some s →
       s ≠ "" → v.timestamp = s)
    ∧ (raw.date_journal = none →
       v.timestamp = env.nowFmt (resolve_timezone env raw.timezone).1)
    ∧ (∀ ms, raw.date_journal = some ms → env.fmtInZone env.localZone ms = none →
       v.timestamp = env.nowFmt (resolve_timezone env raw.timezone).1)
    ∧ v.timestamp ≠ "" := by
  obtain ⟨hveq, -, -⟩ := validate_some_eq env raw data res data' evs h v hv
  subst hveq
  have hts : (mk_validated env raw).timestamp =
      (resolve_timestamp env (resolve_timezone env raw.timezone).1 raw.date_journal).1 := rfl
  refine ⟨?_, ?_, ?_, ?_⟩
  · intro ms s hms hf hs
    rw [hts, hms]
    exact resolve_timestamp_valid env _ ms s hf hs
  · intro hnone
    rw [hts, hnone]
    exact resolve_timestamp_fallback_none env _
  · intro ms hms hf
    rw [hts, hms]
    exact resolve_timestamp_fallback_invalid env _ ms hf
  · rw [hts]
    exact resolve_timestamp_ne_empty env _ raw.date_journal hnow

theorem claim1_timestamp_witness :
    (mk_validated envT rawT).timestamp = "2020-01-01 10:04:05 PM" :=
  (claim1_timestamp envT rawT emptyData _ _ _ rfl
    (fun z => by
      show ("2026-10-12 09:00:00 AM" : String) ≠ ""
      decide)
    (mk_validated envT rawT) (by decide)).1 1577934245000 "2020-01-01 10:04:05 PM"
    rfl (by decide) (by decide)

/-- C1 counterexample: for the entry `rawT` the timestamp field is
present and converts to a valid calendar timestamp, the resolved timezone
is Asia/Tokyo, and that instant rendered in the resolved timezone is
2020-01-02 12:04:05 PM — but the produced timestamp is the rendering in
the host local zone America/New_York, 2020-01-01 10:04:05 PM. -/
theorem claim1_timestamp_counterexample :
    rawT.date_journal = some 1577934245000
    ∧ (resolve_timezone envT rawT.timezone).1 = "Asia/Tokyo"
    ∧ envT.fmtInZone "Asia/Tokyo" 1577934245000 = some "2020-01-02 12:04:05 PM"
    ∧ envT.fmtInZone envT.localZone 1577934245000 = some "2020-01-01 10:04:05 PM"
    ∧ (validate_journey_entry envT rawT emptyData).1 = some (mk_validated envT rawT)
    ∧ (mk_validated envT rawT).timestamp = "2020-01-01 10:04:05 PM"
    ∧ (mk_validated envT rawT).timestamp ≠ "2020-01-02 12:04:05 PM" := by
  refine ⟨rfl, by decide, by decide, by decide, by decide, by decide, by decide⟩

/-- C2: in every normalized entry latitude and longitude are jointly
present or jointly absent; when present each is finite, within range and
different from the float-max sentinel; a sentinel raw pair is dropped
with only the lower-severity no-location event and no warning; any other
invalid raw pairing is dropped with the invalid-coordinates warning —
coordinates are never partially populated. -/
theorem claim2_coordinate_invariant (env : Env) (raw : JourneyEntry)
    (data : ImportManyResult) (res : Option ValidatedEntry) (data' : ImportManyResult)
    (evs : List LogEvent)
    (h : validate_journey_entry env raw data = (res, data', evs)) :
    (∀ v, res = some v →
       (v.lat.isSome = v.lon.isSome)
       ∧ (∀ la, v.lat = some la →
           la.isfinite = true ∧ la.fabs.le (.finite 90) = true ∧ la.beq floatMax = false)
       ∧ (∀ lo, v.lon = some lo →
           lo.isfinite = true ∧ lo.fabs.le (.finite 180) = true ∧ lo.beq floatMax = false))
    ∧ (∀ la lo, raw.lat = some la → raw.lon = some lo →
       la.beq floatMax = true → lo.beq floatMax = true →
         LogEvent.debugNoLocation raw.id ∈ evs
         ∧ LogEvent.warnInvalidCoords raw.id ∉ evs
         ∧ (∀ v, res = some v → v.lat = none ∧ v.lon = none))
    ∧ (∀ la lo, raw.lat = some la → raw.lon = some lo →
       ¬(is_lat_valid la && is_lon_valid lo) = true →
       ¬(la.beq floatMax && lo.beq floatMax) = true →
         LogEvent.warnInvalidCoords raw.id ∈ evs
         ∧ (∀ v, res = some v → v.lat = none ∧ v.lon = none)) := by
  have hevs := validate_evs_eq env raw data res data' evs h
  refine ⟨?_, ?_, ?_⟩
  · intro v hv
    obtain ⟨hveq, -, -⟩ := validate_some_eq env raw data res data' evs h v hv
    subst hveq
    refine ⟨resolve_coordinates_joint raw, ?_, ?_⟩
    · intro la hla
      obtain ⟨-, hval⟩ := resolve_coordinates_lat_some raw la hla
      simpa [is_lat_valid, Bool.and_eq_true, Bool.not_eq_true', and_assoc] using hval
    · intro lo hlo
      obtain ⟨-, hval⟩ := resolve_coordinates_lon_some raw lo hlo
      simpa [is_lon_valid, Bool.and_eq_true, Bool.not_eq_true', and_assoc] using hval
  · intro la lo hla hlo h1 h2
    have hrc := resolve_coordinates_sentinel raw la lo hla hlo h1 h2
    refine ⟨?_, ?_, ?_⟩
    · rw [hevs, mem_validate_events_iff]
      refine Or.inr (Or.inr (Or.inr (Or.inr (Or.inl ?_))))
      rw [hrc]
      exact List.mem_singleton.mpr rfl
    · intro hmem
      rw [hevs, mem_validate_events_iff] at hmem
      rcases hmem with heq | hm | hm | hm | hm | ⟨-, heq⟩ | ⟨-, heq⟩ | ⟨-, heq⟩
      · cases heq
      · rw [resolve_timezone_events] at hm
        by_cases hcond : raw.timezone ≠ "" ∧ env.pytzZone raw.timezone = none
        · rw [if_pos hcond] at hm
          simp at hm
        · rw [if_neg hcond] at hm
          cases hm
      · obtain ⟨ms, heq⟩ := resolve_timestamp_events_shape env _ raw.date_journal _ hm
        cases heq
      · obtain ⟨t, a, heq⟩ := process_photos_events_shape env raw.path raw.photos _ hm
        cases heq
      · rw [hrc] at hm
        simp at hm
      · cases heq
      · cases heq
      · cases heq
    · intro v hv
      obtain ⟨hveq, -, -⟩ := validate_some_eq env raw data res data' evs h v hv
      subst hveq
      constructor
      · show (resolve_coordinates raw).1.1 = none
        rw [hrc]
      · show (resolve_coordinates raw).1.2 = none
        rw [hrc]
  · intro la lo hla hlo hv hs
    have hrc := resolve_coordinates_invalid raw la lo hla hlo hv hs
    refine ⟨?_, ?_⟩
    · rw [hevs, mem_validate_events_iff]
      refine Or.inr (Or.inr (Or.inr (Or.inr (Or.inl ?_))))
      rw [hrc]
      exact List.mem_singleton.mpr rfl
    · intro v hvv
      obtain ⟨hveq, -, -⟩ := validate_some_eq env raw data res data' evs h v hvv
      subst hveq
      constructor
      · show (resolve_coordinates raw).1.1 = none
        rw [hrc]
      · show (resolve_coordinates raw).1.2 = none
        rw [hrc]

theorem claim2_coordinate_invariant_witness :
    (mk_validated envT rawT).lat.isSome = (mk_validated envT rawT).lon.isSome ∧
      (mk_validated envT rawT).lat = some (.finite 10) ∧
      PyFloat.isfinite (.finite 10) = true :=
  ⟨((claim2_coordinate_invariant envT rawT emptyData _ _ _ rfl).1
      (mk_validated envT rawT) (by decide)).1,
   by decide,
   (((claim2_coordinate_invariant envT rawT emptyData _ _ _ rfl).1
      (mk_validated envT rawT) (by decide)).2.1 (.finite 10) (by decide)).1⟩
